import Mathlib

/-!
Shallow embedding of the passport-resizer client (two React component
variants: `src/src/App.jsx`, modelled in namespace `AppA`, and
`src/unnamed/part_000`, modelled in namespace `AppB`).

JavaScript numbers are modelled by exact rationals (`ℚ`): every arithmetic
step the claims speak about (aspect ratios, crop rectangles, target sizes)
is stated and settled in exact arithmetic, the idealisation the spec's
"up to floating-point rounding" qualifiers refer to.  Stateful component
code (`handleFiles`, `doResize`) is embedded as explicit state passing:
the React state fields become a record, asynchronous collaborator results
(object URLs, decoded bitmaps, encoder blobs) become parameters, and the
canvas / download side effects become an explicit trace of operations.
-/

/-- A JavaScript value stored in a controlled-input state field: either a
number (the initial `useState(600)` value) or a string (what the `onChange`
handler stores from `e.target.value`). -/
inductive JSVal where
  | num (q : ℚ)
  | str (s : String)
deriving DecidableEq

/-- Value of a list of decimal digit characters, most significant first. -/
def digitsToNat (cs : List Char) : ℕ :=
  cs.foldl (fun a c => a * 10 + (c.toNat - 48)) 0

/-- Parse an unsigned JavaScript decimal literal (`digits`, `digits.digits`,
`.digits`, `digits.`) to an exact rational; `none` models `NaN`. -/
def parseUnsigned (cs : List Char) : Option ℚ :=
  let ip := cs.takeWhile Char.isDigit
  let rest := cs.dropWhile Char.isDigit
  match rest with
  | [] => if ip.isEmpty then none else some (digitsToNat ip : ℚ)
  | '.' :: fp =>
      if fp.all Char.isDigit && (!ip.isEmpty || !fp.isEmpty) then
        some ((digitsToNat ip : ℚ) + (digitsToNat fp : ℚ) / (10 : ℚ) ^ fp.length)
      else none
  | _ => none

/-- Whitespace characters trimmed by JavaScript `Number(string)`. -/
def isJsWhitespace (c : Char) : Bool :=
  c = ' ' || c = '\t' || c = '\n' || c = '\r'

/-- Trim leading and trailing whitespace from a character list. -/
def trimChars (cs : List Char) : List Char :=
  ((cs.dropWhile isJsWhitespace).reverse.dropWhile isJsWhitespace).reverse

/-- JavaScript `Number(string)` on the decimal literals a number input can
hold: the empty (or all-whitespace) string converts to `0`, an optionally
signed decimal literal converts to its value, anything else is `NaN`
(modelled as `none`). -/
def jsStringToNumber (s : String) : Option ℚ :=
  match trimChars s.data with
  | [] => some 0
  | '-' :: rest => (parseUnsigned rest).map Neg.neg
  | '+' :: rest => parseUnsigned rest
  | cs => parseUnsigned cs

/-- JavaScript `Number(x)` on a state-field value. -/
def jsToNumber (v : JSVal) : Option ℚ :=
  match v with
  | JSVal.num q => some q
  | JSVal.str s => jsStringToNumber s

/-- JavaScript `Number(x) || 600`: `NaN` and `0` are falsy, so both fall
back to `600`; every other numeric value passes through unchanged. -/
def numOr600 (v : JSVal) : ℚ :=
  match jsToNumber v with
  | none => 600
  | some q => if q = 0 then 600 else q

/-- JavaScript `s.startsWith(p)`. -/
def strStartsWith (s p : String) : Bool :=
  List.isPrefixOf p.data s.data

/-- One entry of the `PRESETS` catalog. -/
structure Preset where
  id : String
  label : String
  w : ℚ
  h : ℚ
  info : String
deriving Inhabited

/-- The crop rectangle `(sx, sy, sw, sh)` computed by the cover-fit code. -/
structure CropRect where
  sx : ℚ
  sy : ℚ
  sw : ℚ
  sh : ℚ
deriving DecidableEq

/-- A `File` as the handlers see it: a declared MIME type and an optional
name (`file?.name` can be absent). -/
structure JSFile where
  name : Option String
  type : String
deriving DecidableEq

/-- A decoded raster: the `width`/`height` of the `ImageBitmap`. -/
structure Bitmap where
  width : ℚ
  height : ℚ
deriving DecidableEq

/-- An encoder result handed to the `canvas.toBlob` callback when it is not
`null`. -/
structure Blob where
  size : ℕ
deriving DecidableEq

/-- A canvas drawing operation performed by `doResize`. -/
inductive RenderOp where
  | fillRect (x y w h : ℚ) (color : String)
  | drawImage (crop : CropRect) (dx dy dw dh : ℚ)
deriving DecidableEq

namespace AppA

/-- The preset catalog of `src/src/App.jsx` (lines 3-10). -/
def PRESETS : List Preset :=
  [ { id := "sg-35x45", label := "Singapore Passport — 35×45 mm", w := 413, h := 531, info := "~300 DPI" },
    { id := "my-35x50", label := "Malaysia Passport — 35×50 mm", w := 413, h := 591, info := "~300 DPI" },
    { id := "ph-35x45", label := "Philippines Passport — 35×45 mm", w := 413, h := 531, info := "~300 DPI" },
    { id := "us-2x2", label := "US Passport — 2×2 in", w := 600, h := 600, info := "300 DPI" },
    { id := "schengen-35x45", label := "Schengen Visa — 35×45 mm", w := 413, h := 531, info := "~300 DPI" },
    { id := "custom", label := "Custom (pixels)", w := 600, h := 600, info := "Set below" } ]

/-- `getTargetSize` (App.jsx lines 86-91): look the selected preset up in
the catalog, falling back to the first entry; the `custom` preset returns
`Number(customW) || 600` and `Number(customH) || 600`, any other preset
returns its catalog `(w, h)`. -/
def getTargetSize (presetId : String) (customW customH : JSVal) : ℚ × ℚ :=
  let preset := (PRESETS.find? (fun p => p.id == presetId)).getD PRESETS.headI
  if preset.id == "custom" then
    (numOr600 customW, numOr600 customH)
  else
    (preset.w, preset.h)

/-- The cover-fit crop computation inside `doResize` (App.jsx lines
113-127): start from the full source, then shrink one dimension depending
on how the source aspect compares to the destination aspect. -/
def computeCrop (srcW srcH targetW targetH : ℚ) : CropRect :=
  let srcAspect := srcW / srcH
  let dstAspect := targetW / targetH
  if srcAspect > dstAspect then
    let newSw := srcH * dstAspect
    { sx := max 0 ((srcW - newSw) / 2), sy := 0, sw := newSw, sh := srcH }
  else
    let newSh := srcW / dstAspect
    { sx := 0, sy := max 0 ((srcH - newSh) / 2), sw := srcW, sh := newSh }

/-- The component's React state fields relevant to the handlers. -/
structure AppState where
  file : Option JSFile
  previewURL : String
  bitmap : Option Bitmap
  imgNaturalW : ℚ
  imgNaturalH : ℚ
  presetId : String
  customW : JSVal
  customH : JSVal
  format : String
  generatedURL : String
  busy : Bool
  error : String
deriving DecidableEq

/-- `handleFiles` (App.jsx lines 39-69) as a state transition.  `url`
models the `URL.createObjectURL(f)` result and `decodeResult` the awaited
bitmap decode (`none` = the decoder threw).  The returned `Bool` records
whether a decode was attempted at all. -/
def handleFiles (st : AppState) (files : List JSFile) (url : String)
    (decodeResult : Option Bitmap) : AppState × Bool :=
  match files.head? with
  | none => (st, false)
  | some f =>
    if !(strStartsWith f.type "image/") then
      ({ st with error := "Please upload an image file (JPG/PNG/etc)." }, false)
    else
      let st1 := { st with error := "", file := some f, previewURL := url }
      match decodeResult with
      | some bmp =>
          ({ st1 with bitmap := some bmp, imgNaturalW := bmp.width, imgNaturalH := bmp.height }, true)
      | none =>
          ({ st1 with error := "Failed to load image. Try another file." }, true)

/-- Render a rational the way the template literal renders the target
dimensions; integral values (the only ones the catalog and the claims
exercise) print exactly as JavaScript prints them. -/
def ratToString (q : ℚ) : String :=
  if q.den = 1 then toString q.num else toString q.num ++ "/" ++ toString q.den

/-- The extension-stripping regex replace
`name.replace(/\.(jpg|jpeg|png|heic|webp|bmp)$/i, "")` (App.jsx line 145):
drop a trailing dot-extension when, case-insensitively, it is one of the
six listed; leave any other name unchanged. -/
def stripImageExt (n : String) : String :=
  let cs := n.data
  let lcs := cs.map Char.toLower
  match [".jpg", ".jpeg", ".png", ".heic", ".webp", ".bmp"].find?
      (fun e => List.isSuffixOf e.data lcs) with
  | some e => String.mk (cs.take (cs.length - e.data.length))
  | none => n

/-- The download file name built at App.jsx lines 143-147:
`` `${base}_${targetW}x${targetH}.${ext}` `` where
`ext = mime === "image/png" ? "png" : "jpg"` and
`base = file?.name?.replace(extRegex, "") || "passport"` (so a missing
file, a missing name, or a name that strips to the empty string all fall
back to `"passport"`). -/
def outputName (file : Option JSFile) (mime : String) (targetW targetH : ℚ) : String :=
  let ext := if mime == "image/png" then "png" else "jpg"
  let base :=
    match file with
    | none => "passport"
    | some f =>
      match f.name with
      | none => "passport"
      | some n =>
        let s := stripImageExt n
        if s = "" then "passport" else s
  base ++ "_" ++ ratToString targetW ++ "x" ++ ratToString targetH ++ "." ++ ext

/-- The observable effects of one `doResize` call: the size assigned to
the canvas (if any canvas work happened), the canvas operations performed
in order, and the download file names triggered. -/
structure ResizeTrace where
  canvasSize : Option (ℚ × ℚ)
  ops : List RenderOp
  downloads : List String
deriving DecidableEq

/-- `doResize` (App.jsx lines 93-157) as a state transition with an
explicit effect trace.  `blobResult` models the awaited `canvas.toBlob`
callback value (`none` = `null`, which the code turns into a thrown error
caught by the `catch` block) and `outURL` the `URL.createObjectURL(blob)`
result on the success path.  The `finally` block makes `busy` end `false`
on every path that set it. -/
def doResize (st : AppState) (blobResult : Option Blob) (outURL : String) :
    AppState × ResizeTrace :=
  match st.bitmap with
  | none =>
    ({ st with error := "Please upload an image first." },
     { canvasSize := none, ops := [], downloads := [] })
  | some bmp =>
    let t := getTargetSize st.presetId st.customW st.customH
    let targetW := t.1
    let targetH := t.2
    let crop := computeCrop bmp.width bmp.height targetW targetH
    let ops := [RenderOp.fillRect 0 0 targetW targetH "#ffffff",
                RenderOp.drawImage crop 0 0 targetW targetH]
    match blobResult with
    | none =>
      ({ st with busy := false, error := "Something went wrong while resizing." },
       { canvasSize := some (targetW, targetH), ops := ops, downloads := [] })
    | some _ =>
      ({ st with busy := false, error := "", generatedURL := outURL },
       { canvasSize := some (targetW, targetH), ops := ops,
         downloads := [outputName st.file st.format targetW targetH] })

end AppA

namespace AppB

/-- The preset catalog of `src/unnamed/part_000` (lines 16-24), identical
entry for entry to the minimal variant's. -/
def PRESETS : List Preset :=
  [ { id := "sg-35x45", label := "Singapore Passport — 35×45 mm", w := 413, h := 531, info := "~300 DPI" },
    { id := "my-35x50", label := "Malaysia Passport — 35×50 mm", w := 413, h := 591, info := "~300 DPI" },
    { id := "ph-35x45", label := "Philippines Passport — 35×45 mm", w := 413, h := 531, info := "~300 DPI" },
    { id := "us-2x2", label := "US Passport — 2×2 in", w := 600, h := 600, info := "300 DPI" },
    { id := "schengen-35x45", label := "Schengen Visa — 35×45 mm", w := 413, h := 531, info := "~300 DPI" },
    { id := "custom", label := "Custom (pixels)", w := 600, h := 600, info := "Set below" } ]

/-- `getTargetSize` of the fuller-featured variant (part_000 lines
104-107). -/
def getTargetSize (presetId : String) (customW customH : JSVal) : ℚ × ℚ :=
  let preset := (PRESETS.find? (fun p => p.id == presetId)).getD PRESETS.headI
  if preset.id == "custom" then
    (numOr600 customW, numOr600 customH)
  else
    (preset.w, preset.h)

/-- The cover-fit crop computation of the fuller-featured variant's
`doResize` (part_000 lines 132-148). -/
def computeCrop (srcW srcH targetW targetH : ℚ) : CropRect :=
  let srcAspect := srcW / srcH
  let dstAspect := targetW / targetH
  if srcAspect > dstAspect then
    let newSw := srcH * dstAspect
    { sx := max 0 ((srcW - newSw) / 2), sy := 0, sw := newSw, sh := srcH }
  else
    let newSh := srcW / dstAspect
    { sx := 0, sy := max 0 ((srcH - newSh) / 2), sw := srcW, sh := newSh }

end AppB

example : AppA.computeCrop 1000 500 1 1 = { sx := 250, sy := 0, sw := 500, sh := 500 } := by
  simp only [AppA.computeCrop]
  norm_num
example : AppA.computeCrop 500 1000 1 1 = { sx := 0, sy := 250, sw := 500, sh := 500 } := by
  simp only [AppA.computeCrop]
  norm_num
example : AppA.computeCrop 800 600 400 300 = { sx := 0, sy := 0, sw := 800, sh := 600 } := by
  simp only [AppA.computeCrop]
  norm_num
example : AppA.getTargetSize "us-2x2" (JSVal.num 0) (JSVal.num 0) = (600, 600) := by
  simp [AppA.getTargetSize, AppA.PRESETS, List.find?]
example : AppA.getTargetSize "custom" (JSVal.str "abc") (JSVal.str "2.5") = (600, 5/2) := by
  simp [AppA.getTargetSize, AppA.PRESETS, List.find?, numOr600, jsToNumber,
    jsStringToNumber, trimChars, parseUnsigned, digitsToNat, isJsWhitespace]
  norm_num
example : AppA.getTargetSize "custom" (JSVal.str "-5") (JSVal.str " 700 ") = (-5, 700) := by
  simp [AppA.getTargetSize, AppA.PRESETS, List.find?, numOr600, jsToNumber,
    jsStringToNumber, trimChars, parseUnsigned, digitsToNat, isJsWhitespace]
example : AppA.getTargetSize "custom" (JSVal.str "") (JSVal.str "0") = (600, 600) := by
  simp [AppA.getTargetSize, AppA.PRESETS, List.find?, numOr600, jsToNumber,
    jsStringToNumber, trimChars, parseUnsigned, digitsToNat, isJsWhitespace]
example : AppA.getTargetSize "nope" (JSVal.num 1) (JSVal.num 1) = (413, 531) := by
  simp [AppA.getTargetSize, AppA.PRESETS, List.find?]
/-- In the wider-than-target branch the `Math.max` guard is inert: the
crop is the full-height, aspect-matching, horizontally centered window. -/
theorem computeCrop_eq_wide (srcW srcH targetW targetH : ℚ)
    (hsh : 0 < srcH) (htw : 0 < targetW) (hth : 0 < targetH)
    (h : targetW / targetH < srcW / srcH) :
    AppA.computeCrop srcW srcH targetW targetH =
      { sx := (srcW - srcH * (targetW / targetH)) / 2, sy := 0,
        sw := srcH * (targetW / targetH), sh := srcH } := by
  have hd : 0 < targetW / targetH := div_pos htw hth
  have hlt : srcH * (targetW / targetH) < srcW := by
    have hx := (lt_div_iff₀ hsh).mp h
    linarith
  have hmax : max 0 ((srcW - srcH * (targetW / targetH)) / 2)
      = (srcW - srcH * (targetW / targetH)) / 2 := max_eq_right (by linarith)
  simp only [AppA.computeCrop, gt_iff_lt, if_pos h, hmax]

/-- In the taller-or-equal branch the `Math.max` guard is inert: the crop
is the full-width, aspect-matching, vertically centered window. -/
theorem computeCrop_eq_tall (srcW srcH targetW targetH : ℚ)
    (hsh : 0 < srcH) (htw : 0 < targetW) (hth : 0 < targetH)
    (h : ¬ targetW / targetH < srcW / srcH) :
    AppA.computeCrop srcW srcH targetW targetH =
      { sx := 0, sy := (srcH - srcW / (targetW / targetH)) / 2,
        sw := srcW, sh := srcW / (targetW / targetH) } := by
  have hd : 0 < targetW / targetH := div_pos htw hth
  have hle : srcW / (targetW / targetH) ≤ srcH := by
    have hx : srcW / srcH ≤ targetW / targetH := le_of_not_lt h
    have hy : srcW ≤ targetW / targetH * srcH := (div_le_iff₀ hsh).mp hx
    exact (div_le_iff₀ hd).mpr (by linarith)
  have hmax : max 0 ((srcH - srcW / (targetW / targetH)) / 2)
      = (srcH - srcW / (targetW / targetH)) / 2 := max_eq_right (by linarith)
  simp only [AppA.computeCrop, gt_iff_lt, if_neg h, hmax]

example : AppA.stripImageExt "photo.JPG" = "photo" := by decide
example : AppA.stripImageExt "photo.gif" = "photo.gif" := by decide
example : AppA.stripImageExt ".png" = "" := by decide

/-- Claim C1: for positive source and target sizes, the cover-fit crop
calculator returns a rectangle whose aspect ratio `sw/sh` equals
`targetW/targetH`, which is centered in the source, is the largest
aspect-correct rectangle fitting in the source, and matches the claimed
branch formulas: when `srcW/srcH > targetW/targetH` it returns
`sh = srcH`, `sw = srcH * (targetW/targetH)`, `sx = (srcW - sw)/2`,
`sy = 0`; otherwise `sw = srcW`, `sh = srcW / (targetW/targetH)`,
`sy = (srcH - sh)/2`, `sx = 0`. -/
theorem computeCrop_cover_fit (srcW srcH targetW targetH : ℚ)
    (hsw : 0 < srcW) (hsh : 0 < srcH) (htw : 0 < targetW) (hth : 0 < targetH) :
    (AppA.computeCrop srcW srcH targetW targetH).sw /
        (AppA.computeCrop srcW srcH targetW targetH).sh = targetW / targetH ∧
    (AppA.computeCrop srcW srcH targetW targetH).sx =
        (srcW - (AppA.computeCrop srcW srcH targetW targetH).sw) / 2 ∧
    (AppA.computeCrop srcW srcH targetW targetH).sy =
        (srcH - (AppA.computeCrop srcW srcH targetW targetH).sh) / 2 ∧
    (∀ w h : ℚ, 0 < h → w / h = targetW / targetH → w ≤ srcW → h ≤ srcH →
        w ≤ (AppA.computeCrop srcW srcH targetW targetH).sw ∧
        h ≤ (AppA.computeCrop srcW srcH targetW targetH).sh) ∧
    (srcW / srcH > targetW / targetH →
        (AppA.computeCrop srcW srcH targetW targetH).sh = srcH ∧
        (AppA.computeCrop srcW srcH targetW targetH).sw = srcH * (targetW / targetH) ∧
        (AppA.computeCrop srcW srcH targetW targetH).sy = 0) ∧
    (¬ srcW / srcH > targetW / targetH →
        (AppA.computeCrop srcW srcH targetW targetH).sw = srcW ∧
        (AppA.computeCrop srcW srcH targetW targetH).sh = srcW / (targetW / targetH) ∧
        (AppA.computeCrop srcW srcH targetW targetH).sx = 0) := by
  have hd : 0 < targetW / targetH := div_pos htw hth
  by_cases hc : targetW / targetH < srcW / srcH
  · rw [computeCrop_eq_wide srcW srcH targetW targetH hsh htw hth hc]
    have hratio : srcH * (targetW / targetH) / srcH = targetW / targetH :=
      mul_div_cancel_left₀ _ (ne_of_gt hsh)
    refine ⟨hratio, rfl, by ring, ?_, fun _ => ⟨rfl, rfl, rfl⟩, fun hcon => absurd hc hcon⟩
    intro w h h0 hwh hwW hhH
    have hwh' : w * targetH = targetW * h := by
      field_simp at hwh
      linarith
    have hw : w = targetW / targetH * h := by
      rw [div_mul_eq_mul_div, eq_div_iff (ne_of_gt hth)]
      linarith
    constructor
    · rw [hw, mul_comm srcH (targetW / targetH)]
      exact mul_le_mul_of_nonneg_left hhH (le_of_lt hd)
    · exact hhH
  · rw [computeCrop_eq_tall srcW srcH targetW targetH hsh htw hth hc]
    have hratio : srcW / (srcW / (targetW / targetH)) = targetW / targetH := by
      rw [div_div_eq_mul_div]
      exact mul_div_cancel_left₀ _ (ne_of_gt hsw)
    refine ⟨hratio, by ring, rfl, ?_, fun hcon => absurd hcon hc, fun _ => ⟨rfl, rfl, rfl⟩⟩
    intro w h h0 hwh hwW hhH
    refine ⟨hwW, ?_⟩
    have hwh' : w * targetH = targetW * h := by
      field_simp at hwh
      linarith
    have hw : w = targetW / targetH * h := by
      rw [div_mul_eq_mul_div, eq_div_iff (ne_of_gt hth)]
      linarith
    refine (le_div_iff₀ hd).mpr ?_
    calc h * (targetW / targetH) = w := by rw [mul_comm, ← hw]
    _ ≤ srcW := hwW

/-- Witness for claim C1: the spec's own example, a 1000×500 source with a
1:1 target, satisfies the hypotheses, and the crop keeps the unit aspect
ratio. -/
theorem computeCrop_cover_fit_witness :
    (0 : ℚ) < 1000 ∧
    (AppA.computeCrop 1000 500 1 1).sw / (AppA.computeCrop 1000 500 1 1).sh = 1 / 1 :=
  ⟨by norm_num,
   (computeCrop_cover_fit 1000 500 1 1 (by norm_num) (by norm_num) (by norm_num)
      (by norm_num)).1⟩

/-- Claim C2: for positive source and target sizes, the crop rectangle
stays inside the source bounds: `0 ≤ sx`, `0 ≤ sy`, `sx + sw ≤ srcW`,
`sy + sh ≤ srcH` (exactly, in exact rational arithmetic). -/
theorem computeCrop_in_bounds (srcW srcH targetW targetH : ℚ)
    (hsw : 0 < srcW) (hsh : 0 < srcH) (htw : 0 < targetW) (hth : 0 < targetH) :
    0 ≤ (AppA.computeCrop srcW srcH targetW targetH).sx ∧
    0 ≤ (AppA.computeCrop srcW srcH targetW targetH).sy ∧
    (AppA.computeCrop srcW srcH targetW targetH).sx +
        (AppA.computeCrop srcW srcH targetW targetH).sw ≤ srcW ∧
    (AppA.computeCrop srcW srcH targetW targetH).sy +
        (AppA.computeCrop srcW srcH targetW targetH).sh ≤ srcH := by
  have hd : 0 < targetW / targetH := div_pos htw hth
  by_cases hc : targetW / targetH < srcW / srcH
  · rw [computeCrop_eq_wide srcW srcH targetW targetH hsh htw hth hc]
    have hlt : srcH * (targetW / targetH) < srcW := by
      have hx := (lt_div_iff₀ hsh).mp hc
      linarith
    refine ⟨by linarith, le_refl 0, by linarith, by linarith⟩
  · rw [computeCrop_eq_tall srcW srcH targetW targetH hsh htw hth hc]
    have hle : srcW / (targetW / targetH) ≤ srcH := by
      have hx : srcW / srcH ≤ targetW / targetH := le_of_not_lt hc
      have hy : srcW ≤ targetW / targetH * srcH := (div_le_iff₀ hsh).mp hx
      exact (div_le_iff₀ hd).mpr (by linarith)
    exact ⟨le_refl 0, by linarith, by linarith, by linarith⟩

/-- Witness for claim C2: the 500×1000 source with 1:1 target satisfies
the hypotheses and its crop stays inside the source. -/
theorem computeCrop_in_bounds_witness :
    (0 : ℚ) < 500 ∧ 0 ≤ (AppA.computeCrop 500 1000 1 1).sx :=
  ⟨by norm_num,
   (computeCrop_in_bounds 500 1000 1 1 (by norm_num) (by norm_num) (by norm_num)
      (by norm_num)).1⟩

/-- Claim C3: when the source aspect exactly equals the target aspect the
`if` condition is false, so the else branch runs and yields the full
source with zero offsets. -/
theorem computeCrop_equal_aspect (srcW srcH targetW targetH : ℚ)
    (hsw : 0 < srcW) (hsh : 0 < srcH) (htw : 0 < targetW) (hth : 0 < targetH)
    (heq : srcW / srcH = targetW / targetH) :
    ¬ (srcW / srcH > targetW / targetH) ∧
    AppA.computeCrop srcW srcH targetW targetH =
      { sx := 0, sy := 0, sw := srcW, sh := srcH } := by
  have hngt : ¬ (targetW / targetH < srcW / srcH) := by rw [heq]; exact lt_irrefl _
  refine ⟨hngt, ?_⟩
  rw [computeCrop_eq_tall srcW srcH targetW targetH hsh htw hth hngt]
  have hsh' : srcW / (targetW / targetH) = srcH := by
    rw [← heq, div_div_eq_mul_div]
    exact mul_div_cancel_left₀ _ (ne_of_gt hsw)
  rw [hsh']
  have hzero : (srcH - srcH) / 2 = (0 : ℚ) := by ring
  rw [hzero]

/-- Witness for claim C3: the spec's own example, a 800×600 source with a
400×300 target, has exactly matching aspects and yields the full source. -/
theorem computeCrop_equal_aspect_witness :
    (800 : ℚ) / 600 = 400 / 300 ∧
    AppA.computeCrop 800 600 400 300 = { sx := 0, sy := 0, sw := 800, sh := 600 } :=
  ⟨by norm_num,
   (computeCrop_equal_aspect 800 600 400 300 (by norm_num) (by norm_num) (by norm_num)
      (by norm_num) (by norm_num)).2⟩
example : AppA.outputName (some { name := some "me.jpeg", type := "image/jpeg" }) "image/jpeg" 413 531 = "me_413x531.jpg" := by decide
example : AppA.outputName none "image/png" 600 600 = "passport_600x600.png" := by decide

/-- Claim C4: with a decoded source present, `doResize` sizes the output
surface to exactly the computed target size, whatever the source
dimensions are, and its canvas work is exactly one background fill of the
full target area followed by exactly one draw of the cover-fit crop scaled
onto `(0,0)-(targetW,targetH)`, in that order. -/
theorem doResize_render_trace (st : AppA.AppState) (bmp : Bitmap)
    (blobResult : Option Blob) (outURL : String) (h : st.bitmap = some bmp) :
    (AppA.doResize st blobResult outURL).2.canvasSize =
      some ((AppA.getTargetSize st.presetId st.customW st.customH).1,
            (AppA.getTargetSize st.presetId st.customW st.customH).2) ∧
    (AppA.doResize st blobResult outURL).2.ops =
      [RenderOp.fillRect 0 0 (AppA.getTargetSize st.presetId st.customW st.customH).1
          (AppA.getTargetSize st.presetId st.customW st.customH).2 "#ffffff",
       RenderOp.drawImage
          (AppA.computeCrop bmp.width bmp.height
            (AppA.getTargetSize st.presetId st.customW st.customH).1
            (AppA.getTargetSize st.presetId st.customW st.customH).2)
          0 0 (AppA.getTargetSize st.presetId st.customW st.customH).1
          (AppA.getTargetSize st.presetId st.customW st.customH).2] := by
  cases blobResult <;> simp [AppA.doResize, h]

/-- Witness for claim C4: a concrete session whose 100×80 source is
smaller than the selected 600×600 target still gets a canvas of exactly
the target size. -/
theorem doResize_render_trace_witness :
    ({ file := none, previewURL := "", bitmap := some { width := 100, height := 80 },
       imgNaturalW := 100, imgNaturalH := 80, presetId := "us-2x2",
       customW := JSVal.num 600, customH := JSVal.num 600, format := "image/jpeg",
       generatedURL := "", busy := false, error := "" } : AppA.AppState).bitmap =
      some { width := 100, height := 80 } ∧
    (AppA.doResize
        { file := none, previewURL := "", bitmap := some { width := 100, height := 80 },
          imgNaturalW := 100, imgNaturalH := 80, presetId := "us-2x2",
          customW := JSVal.num 600, customH := JSVal.num 600, format := "image/jpeg",
          generatedURL := "", busy := false, error := "" }
        (some { size := 1 }) "blob:out").2.canvasSize =
      some ((AppA.getTargetSize "us-2x2" (JSVal.num 600) (JSVal.num 600)).1,
            (AppA.getTargetSize "us-2x2" (JSVal.num 600) (JSVal.num 600)).2) :=
  ⟨rfl,
   (doResize_render_trace _ { width := 100, height := 80 } (some { size := 1 })
      "blob:out" rfl).1⟩

/-- The `Number(x) || 600` coercion never produces zero: `NaN` and `0`
both fall back to `600`. -/
theorem numOr600_ne_zero (v : JSVal) : numOr600 v ≠ 0 := by
  cases hj : jsToNumber v with
  | none => simp [numOr600, hj]
  | some q =>
    simp only [numOr600, hj]
    split_ifs with h
    · norm_num
    · exact h

/-- Every catalog entry has width and height at least 1. -/
theorem presets_dims_ge_one : ∀ p ∈ AppA.PRESETS, 1 ≤ p.w ∧ 1 ≤ p.h := by
  intro p hp
  fin_cases hp <;> constructor <;> norm_num

/-- Claim C5 counterexample: with the custom preset, the width field
`"2.5"` is coerced by `Number` to the non-integral value `5/2` (its
reduced denominator is `2`, not `1`), so the computation does not coerce
custom fields to integers. -/
theorem getTargetSize_custom_fractional :
    AppA.getTargetSize "custom" (JSVal.str "2.5") (JSVal.str "600") = (5 / 2, 600) ∧
    ((5 : ℚ) / 2).den ≠ 1 := by
  constructor
  · simp [AppA.getTargetSize, AppA.PRESETS, List.find?, numOr600, jsToNumber,
      jsStringToNumber, trimChars, parseUnsigned, digitsToNat, isJsWhitespace]
    norm_num
  · norm_num

/-- Claim C5 (amended): with the custom preset the fields are coerced to
numbers by JavaScript `Number` semantics — not necessarily integers — and
a field falls back to 600 exactly when the coercion yields `NaN` or `0`;
selecting any non-custom catalog preset returns that entry's `(w, h)`
unchanged. -/
theorem getTargetSize_custom_amended (cw ch : JSVal) :
    (jsToNumber cw = none → (AppA.getTargetSize "custom" cw ch).1 = 600) ∧
    (jsToNumber cw = some 0 → (AppA.getTargetSize "custom" cw ch).1 = 600) ∧
    (∀ q : ℚ, jsToNumber cw = some q → q ≠ 0 → (AppA.getTargetSize "custom" cw ch).1 = q) ∧
    (jsToNumber ch = none → (AppA.getTargetSize "custom" cw ch).2 = 600) ∧
    (jsToNumber ch = some 0 → (AppA.getTargetSize "custom" cw ch).2 = 600) ∧
    (∀ q : ℚ, jsToNumber ch = some q → q ≠ 0 → (AppA.getTargetSize "custom" cw ch).2 = q) ∧
    (∀ p : Preset, p ∈ AppA.PRESETS → p.id ≠ "custom" →
        AppA.getTargetSize p.id cw ch = (p.w, p.h)) := by
  have hcustom : AppA.getTargetSize "custom" cw ch = (numOr600 cw, numOr600 ch) := by
    simp [AppA.getTargetSize, AppA.PRESETS, List.find?]
  refine ⟨?_, ?_, ?_, ?_, ?_, ?_, ?_⟩
  · intro hn
    rw [hcustom]
    simp [numOr600, hn]
  · intro hn
    rw [hcustom]
    simp [numOr600, hn]
  · intro q hq hne
    rw [hcustom]
    simp [numOr600, hq, hne]
  · intro hn
    rw [hcustom]
    simp [numOr600, hn]
  · intro hn
    rw [hcustom]
    simp [numOr600, hn]
  · intro q hq hne
    rw [hcustom]
    simp [numOr600, hq, hne]
  · intro p hp hne
    fin_cases hp
    · simp [AppA.getTargetSize, AppA.PRESETS, List.find?]
    · simp [AppA.getTargetSize, AppA.PRESETS, List.find?]
    · simp [AppA.getTargetSize, AppA.PRESETS, List.find?]
    · simp [AppA.getTargetSize, AppA.PRESETS, List.find?]
    · simp [AppA.getTargetSize, AppA.PRESETS, List.find?]
    · exact absurd rfl hne

/-- Witness for claim C5 (amended): the non-numeric width `"abc"` parses
to `NaN` and falls back to 600. -/
theorem getTargetSize_custom_amended_witness :
    jsToNumber (JSVal.str "abc") = none ∧
    (AppA.getTargetSize "custom" (JSVal.str "abc") (JSVal.str "600")).1 = 600 :=
  ⟨by simp [jsToNumber, jsStringToNumber, trimChars, parseUnsigned, isJsWhitespace],
   (getTargetSize_custom_amended (JSVal.str "abc") (JSVal.str "600")).1
     (by simp [jsToNumber, jsStringToNumber, trimChars, parseUnsigned, isJsWhitespace])⟩

/-- Claim C6 counterexample: nothing rejects negative custom sizes — with
the custom preset a width field of `"-5"` flows through `Number(x) || 600`
unchanged, so the target width handed to the crop computation is `-5`,
violating `targetW ≥ 1`. -/
theorem getTargetSize_negative_passthrough :
    (AppA.getTargetSize "custom" (JSVal.str "-5") (JSVal.num 600)).1 = -5 ∧
    ¬ (1 ≤ (AppA.getTargetSize "custom" (JSVal.str "-5") (JSVal.num 600)).1) := by
  have hval : (AppA.getTargetSize "custom" (JSVal.str "-5") (JSVal.num 600)).1 = -5 := by
    simp [AppA.getTargetSize, AppA.PRESETS, List.find?, numOr600, jsToNumber,
      jsStringToNumber, trimChars, parseUnsigned, digitsToNat, isJsWhitespace]
  refine ⟨hval, ?_⟩
  rw [hval]
  norm_num

/-- Claim C6 (amended): the target size handed to the crop computation is
never zero (zero, empty and unparsable custom fields fall back to 600),
and for every non-custom preset selection both components are at least 1;
but negative or fractional custom values below 1 pass through, so
`targetW ≥ 1` is not guaranteed for the custom preset. -/
theorem getTargetSize_nonzero_amended (pid : String) (cw ch : JSVal) :
    (AppA.getTargetSize pid cw ch).1 ≠ 0 ∧
    (AppA.getTargetSize pid cw ch).2 ≠ 0 ∧
    (pid ≠ "custom" →
      1 ≤ (AppA.getTargetSize pid cw ch).1 ∧ 1 ≤ (AppA.getTargetSize pid cw ch).2) := by
  cases hfind : AppA.PRESETS.find? (fun p => p.id == pid) with
  | none =>
    have hres : AppA.getTargetSize pid cw ch = (413, 531) := by
      simp only [AppA.getTargetSize]
      rw [hfind]
      simp [AppA.PRESETS, List.headI]
    rw [hres]
    norm_num
  | some p =>
    have hmem : p ∈ AppA.PRESETS := List.mem_of_find?_eq_some hfind
    have hid : p.id = pid := by
      have := List.find?_some hfind
      simpa using this
    by_cases hc : p.id = "custom"
    · have hres : AppA.getTargetSize pid cw ch = (numOr600 cw, numOr600 ch) := by
        simp [AppA.getTargetSize, hfind, hc]
      rw [hres]
      refine ⟨numOr600_ne_zero cw, numOr600_ne_zero ch, ?_⟩
      intro hne
      exact absurd (hid ▸ hc) hne
    · have hres : AppA.getTargetSize pid cw ch = (p.w, p.h) := by
        simp [AppA.getTargetSize, hfind, hc]
      rw [hres]
      have hge := presets_dims_ge_one p hmem
      exact ⟨by linarith [hge.1], by linarith [hge.2], fun _ => hge⟩

/-- Witness for claim C6 (amended): the non-custom preset `us-2x2` yields
a target of at least 1×1. -/
theorem getTargetSize_nonzero_amended_witness :
    ("us-2x2" ≠ "custom") ∧
    1 ≤ (AppA.getTargetSize "us-2x2" (JSVal.num 0) (JSVal.num 0)).1 ∧
    1 ≤ (AppA.getTargetSize "us-2x2" (JSVal.num 0) (JSVal.num 0)).2 :=
  ⟨by decide,
   (getTargetSize_nonzero_amended "us-2x2" (JSVal.num 0) (JSVal.num 0)).2.2 (by decide)⟩

/-- Claim C7: a file whose declared MIME type does not start with
`"image/"` is rejected with the user-facing message, no decode is
attempted (the returned flag is `false`), and the previously stored file,
preview URL, decoded bitmap and natural-dimension fields are all left
unchanged. -/
theorem handleFiles_rejects_non_image (st : AppA.AppState) (f : JSFile)
    (url : String) (dec : Option Bitmap)
    (h : strStartsWith f.type "image/" = false) :
    AppA.handleFiles st [f] url dec =
      ({ st with error := "Please upload an image file (JPG/PNG/etc)." }, false) ∧
    (AppA.handleFiles st [f] url dec).1.file = st.file ∧
    (AppA.handleFiles st [f] url dec).1.previewURL = st.previewURL ∧
    (AppA.handleFiles st [f] url dec).1.bitmap = st.bitmap ∧
    (AppA.handleFiles st [f] url dec).1.imgNaturalW = st.imgNaturalW ∧
    (AppA.handleFiles st [f] url dec).1.imgNaturalH = st.imgNaturalH ∧
    (AppA.handleFiles st [f] url dec).1.generatedURL = st.generatedURL ∧
    (AppA.handleFiles st [f] url dec).2 = false := by
  have heq : AppA.handleFiles st [f] url dec =
      ({ st with error := "Please upload an image file (JPG/PNG/etc)." }, false) := by
    simp [AppA.handleFiles, h]
  exact ⟨heq, by rw [heq], by rw [heq], by rw [heq], by rw [heq], by rw [heq],
    by rw [heq], by rw [heq]⟩

/-- Witness for claim C7: a `text/plain` file is rejected without touching
the stored bitmap. -/
theorem handleFiles_rejects_non_image_witness :
    strStartsWith "text/plain" "image/" = false ∧
    (AppA.handleFiles
        { file := none, previewURL := "p", bitmap := some { width := 8, height := 9 },
          imgNaturalW := 8, imgNaturalH := 9, presetId := "sg-35x45",
          customW := JSVal.num 600, customH := JSVal.num 600, format := "image/jpeg",
          generatedURL := "g", busy := false, error := "" }
        [{ name := some "notes.txt", type := "text/plain" }] "u" none).1.bitmap =
      some { width := 8, height := 9 } :=
  ⟨by decide,
   (handleFiles_rejects_non_image
      { file := none, previewURL := "p", bitmap := some { width := 8, height := 9 },
        imgNaturalW := 8, imgNaturalH := 9, presetId := "sg-35x45",
        customW := JSVal.num 600, customH := JSVal.num 600, format := "image/jpeg",
        generatedURL := "g", busy := false, error := "" }
      { name := some "notes.txt", type := "text/plain" } "u" none (by decide)).2.2.2.1⟩

/-- Claim C8: when the encoder hands back `null` (`canvas.toBlob` yields
no blob), the thrown error is caught: the user-facing resize error is set,
no download is triggered, the previously generated URL is not replaced,
and the busy flag is cleared. -/
theorem doResize_null_blob_fails (st : AppA.AppState) (bmp : Bitmap) (outURL : String)
    (h : st.bitmap = some bmp) :
    (AppA.doResize st none outURL).1.error = "Something went wrong while resizing." ∧
    (AppA.doResize st none outURL).1.generatedURL = st.generatedURL ∧
    (AppA.doResize st none outURL).2.downloads = [] ∧
    (AppA.doResize st none outURL).1.busy = false := by
  refine ⟨?_, ?_, ?_, ?_⟩ <;> simp [AppA.doResize, h]

/-- Witness for claim C8: a concrete session with a decoded 800×600 source
and a `null` encoder result keeps its previous output URL. -/
theorem doResize_null_blob_fails_witness :
    ({ file := none, previewURL := "", bitmap := some { width := 800, height := 600 },
       imgNaturalW := 800, imgNaturalH := 600, presetId := "sg-35x45",
       customW := JSVal.num 600, customH := JSVal.num 600, format := "image/jpeg",
       generatedURL := "blob:old", busy := true, error := "" } : AppA.AppState).bitmap =
      some { width := 800, height := 600 } ∧
    (AppA.doResize
        { file := none, previewURL := "", bitmap := some { width := 800, height := 600 },
          imgNaturalW := 800, imgNaturalH := 600, presetId := "sg-35x45",
          customW := JSVal.num 600, customH := JSVal.num 600, format := "image/jpeg",
          generatedURL := "blob:old", busy := true, error := "" }
        none "blob:new").1.generatedURL = "blob:old" :=
  ⟨rfl,
   (doResize_null_blob_fails
      { file := none, previewURL := "", bitmap := some { width := 800, height := 600 },
        imgNaturalW := 800, imgNaturalH := 600, presetId := "sg-35x45",
        customW := JSVal.num 600, customH := JSVal.num 600, format := "image/jpeg",
        generatedURL := "blob:old", busy := true, error := "" }
      { width := 800, height := 600 } "blob:new" rfl).2.1⟩

/-- Claim C9 counterexample: the regex strips only the six listed
extensions, so the accepted image file `photo.gif` keeps its extension in
the download name — the original name's extension is not stripped. -/
theorem outputName_keeps_unknown_extension :
    AppA.outputName (some { name := some "photo.gif", type := "image/gif" })
        "image/jpeg" 413 531 = "photo.gif_413x531.jpg" ∧
    AppA.outputName (some { name := some "photo.gif", type := "image/gif" })
        "image/jpeg" 413 531 ≠ "photo_413x531.jpg" := by
  constructor
  · decide
  · decide

/-- Claim C9 (amended): the download name is
`base ++ "_" ++ targetW ++ "x" ++ targetH ++ "." ++ ext` with `ext` equal
to `png` exactly for the lossless format and `jpg` otherwise, and `base`
equal to the original name with a trailing jpg/jpeg/png/heic/webp/bmp
extension (case-insensitive) stripped; other extensions are kept, and the
base falls back to `passport` when the file or its name is unavailable or
when stripping leaves the empty string. -/
theorem outputName_amended (n ty mime : String) (tW tH : ℚ) :
    AppA.outputName none mime tW tH =
      "passport_" ++ AppA.ratToString tW ++ "x" ++ AppA.ratToString tH ++ "." ++
        (if mime == "image/png" then "png" else "jpg") ∧
    AppA.outputName (some { name := none, type := ty }) mime tW tH =
      "passport_" ++ AppA.ratToString tW ++ "x" ++ AppA.ratToString tH ++ "." ++
        (if mime == "image/png" then "png" else "jpg") ∧
    (AppA.stripImageExt n ≠ "" →
      AppA.outputName (some { name := some n, type := ty }) mime tW tH =
        AppA.stripImageExt n ++ "_" ++ AppA.ratToString tW ++ "x" ++
          AppA.ratToString tH ++ "." ++
          (if mime == "image/png" then "png" else "jpg")) ∧
    (AppA.stripImageExt n = "" →
      AppA.outputName (some { name := some n, type := ty }) mime tW tH =
        "passport_" ++ AppA.ratToString tW ++ "x" ++ AppA.ratToString tH ++ "." ++
          (if mime == "image/png" then "png" else "jpg")) := by
  refine ⟨rfl, rfl, ?_, ?_⟩
  · intro hne
    simp [AppA.outputName, hne]
  · intro hempty
    simp [AppA.outputName, hempty]

/-- Witness for claim C9 (amended): `me.PNG` strips (case-insensitively)
to the nonempty base `me`, which is used in the download name. -/
theorem outputName_amended_witness :
    AppA.stripImageExt "me.PNG" ≠ "" ∧
    AppA.outputName (some { name := some "me.PNG", type := "image/png" })
        "image/jpeg" 600 600 =
      AppA.stripImageExt "me.PNG" ++ "_" ++ AppA.ratToString 600 ++ "x" ++
        AppA.ratToString 600 ++ "." ++
        (if "image/jpeg" == "image/png" then "png" else "jpg") :=
  ⟨by decide,
   (outputName_amended "me.PNG" "image/png" "image/jpeg" 600 600).2.2.1 (by decide)⟩

/-- Claim C10: the minimal variant (`src/src/App.jsx`) and the
fuller-featured variant (`src/unnamed/part_000`) compute identical target
sizes and identical crop rectangles on every input: their `getTargetSize`
functions and cover-fit crop computations are extensionally equal. -/
theorem variants_extensionally_equal :
    (∀ (pid : String) (cw ch : JSVal),
        AppA.getTargetSize pid cw ch = AppB.getTargetSize pid cw ch) ∧
    (∀ srcW srcH targetW targetH : ℚ,
        AppA.computeCrop srcW srcH targetW targetH =
          AppB.computeCrop srcW srcH targetW targetH) :=
  ⟨fun _ _ _ => rfl, fun _ _ _ _ => rfl⟩
